import Mathlib

/-!
Verification of the bluff-body LES plotting utilities (`plotting/common.py`).

The Python module is shallowly embedded here:
* class `dimensions` becomes the structure `dimensions`, built by
  `dimensions.make` (its `__init__`); the dynamic `getattr(dims, axis +
  '_offset', 0)` / `getattr(dims, axis + '_flip', 1)` lookups become the
  total functions `dimensions.offsetAttr` / `dimensions.flipAttr`, which
  return the attribute when the class defines it and the stated default
  otherwise (the class defines `y_offset`, `z_offset` and `z_flip` only).
* a numpy 2-d array becomes `NpArray`: a carried shape plus a row list,
  with well-formedness `NpArray.WF` (numpy arrays are rectangular by
  construction, the model states it as a predicate).
* class `dataset` becomes the structure `dataset`; its `__init__`'s
  `assert len(columns) == data.shape[1]` makes the constructor
  `dataset.make` return an `Option` (`none` = failed assertion), and the
  `assert self.is_simulation` in `normalize` likewise makes
  `dataset.normalize` an `Option`.  The in-place column loop of
  `normalize` touches each column index exactly once, so it equals the
  per-row, per-entry map `normalizeRow`.
* Python floats are idealized as exact rationals `ℚ` (all literals in the
  source are decimal).
* `os.path.join` on the two-argument calls used here is `pjoin`
  (separator `/`); `os.path.abspath` and `os.path.isdir` depend on the
  file system and are abstracted as explicit function parameters.
-/

/-- Substring test: Python's `pat in s` on strings. -/
def strContains (s pat : String) : Bool :=
  s.data.tails.any (fun t => pat.data.isPrefixOf t)

/-- The `dimensions` class: fixed physical constants of the rig. -/
structure dimensions where
  D : ℚ
  height : ℚ
  width : ℚ
  Ubulk : ℚ
  trailing_edge : ℚ
  z_offset : ℚ
  y_offset : ℚ
  z_flip : ℚ
  deriving DecidableEq

/-- `dimensions.__init__(reacting)`. -/
def dimensions.make (reacting : Bool) : dimensions :=
  let D : ℚ := 40 / 1000
  let height : ℚ := 3 * D
  let trailing_edge : ℚ := -200 / 1000
  { D := D
    height := height
    width := 2 * D
    Ubulk := if !reacting then 166 / 10 else 176 / 10
    trailing_edge := trailing_edge
    z_offset := trailing_edge
    y_offset := height / 2
    z_flip := -1 }

/-- `getattr(dims, '{}_offset'.format(axis), 0)`: the class defines
`y_offset` and `z_offset`; any other axis falls back to the default 0. -/
def dimensions.offsetAttr (dims : dimensions) (axis : String) : ℚ :=
  if axis = "y" then dims.y_offset
  else if axis = "z" then dims.z_offset
  else 0

/-- `getattr(dims, '{}_flip'.format(axis), 1)`: the class defines `z_flip`
only; any other axis falls back to the default 1. -/
def dimensions.flipAttr (dims : dimensions) (axis : String) : ℚ :=
  if axis = "z" then dims.z_flip else 1

/-- A numpy 2-d array: carried shape plus entries (a list of rows). -/
structure NpArray where
  shape0 : ℕ
  shape1 : ℕ
  entries : List (List ℚ)
  deriving DecidableEq

/-- Rectangularity, which numpy guarantees by construction. -/
def NpArray.WF (a : NpArray) : Prop :=
  a.entries.length = a.shape0 ∧ ∀ row ∈ a.entries, row.length = a.shape1

instance (a : NpArray) : Decidable a.WF := by
  unfold NpArray.WF; infer_instance

/-- The `dataset` class: a labeled 2-d table. -/
structure dataset where
  columns : List String
  data : NpArray
  name : String
  is_simulation : Bool
  deriving DecidableEq

/-- `dataset.__init__`: the `assert len(columns) == data.shape[1]` is
modelled by returning `none` when the assertion fails. -/
def dataset.make (columns : List String) (data : NpArray) (name : String)
    (is_simulation : Bool) : Option dataset :=
  if columns.length = data.shape1 then
    some { columns := columns, data := data, name := name,
           is_simulation := is_simulation }
  else none

/-- Property `dataset.npoints`: returns `self.data.shape[1]`. -/
def dataset.npoints (ds : dataset) : ℕ := ds.data.shape1

/-- Property `dataset.shape`: returns `self.data.shape`. -/
def dataset.shape (ds : dataset) : ℕ × ℕ := (ds.data.shape0, ds.data.shape1)

/-- The entries of a dataset's array (`self.data`, as a row list). -/
def dataset.dataEntries (ds : dataset) : List (List ℚ) := ds.data.entries

/-- `dataset.__setitem__` at one position: `self.data[i][j] = v`.  `List.set`
out of range leaves the list unchanged, matching no-op on absent index in
the model (numpy would raise; the constructor invariant rules it out). -/
def dataset.setItem (ds : dataset) (i j : ℕ) (v : ℚ) : dataset :=
  { ds with data := { ds.data with
      entries := ds.data.entries.set i ((ds.data.entries.getD i []).set j v) } }

/-- Python `col[-1]` (the last character, as a one-character string). -/
def axisOf (col : String) : String :=
  match col.data.getLast? with
  | some c => String.mk [c]
  | none => ""

/-- The body of `dataset.normalize` for a single entry `v` lying in column
`col` of a dataset named `name`: the `if col in ['y', 'z']` / `elif col in
['Ux', 'Uy', 'Uz']` dispatch, with the in-place `-=`, `*=`, `/=` sequence
applied in source order. -/
def normalizeValue (dims : dimensions) (name col : String) (v : ℚ) : ℚ :=
  if col = "y" ∨ col = "z" then
    ((v - dims.offsetAttr col) * dims.flipAttr col) / dims.D
  else if col = "Ux" ∨ col = "Uy" ∨ col = "Uz" then
    let axis := axisOf col
    let v1 := if strContains name "fluct" then v else v * dims.flipAttr axis
    v1 / dims.Ubulk
  else v

/-- One row of `dataset.normalize`: entry `i` is transformed according to
column name `i` (the column loop visits every column index exactly once,
so the in-place loop equals this per-entry map). -/
def normalizeRow (dims : dimensions) (name : String) :
    List String → List ℚ → List ℚ
  | _, [] => []
  | [], v :: vs => v :: normalizeRow dims name [] vs
  | c :: cs, v :: vs => normalizeValue dims name c v :: normalizeRow dims name cs vs

/-- `dataset.normalize(reacting)`: the leading
`assert self.is_simulation` is modelled by returning `none` when it fails. -/
def dataset.normalize (ds : dataset) (reacting : Bool) : Option dataset :=
  if ds.is_simulation then
    let dims := dimensions.make reacting
    some { ds with data := { ds.data with
      entries := ds.data.entries.map (normalizeRow dims ds.name ds.columns) } }
  else none

/-- The constructor invariant of `dataset`: a rectangular array whose
column count matches the column-name list. -/
def dataset.Inv (ds : dataset) : Prop :=
  ds.data.WF ∧ ds.columns.length = ds.data.shape1

instance (ds : dataset) : Decidable ds.Inv := by
  unfold dataset.Inv; infer_instance

/-- The path resolution in `UserOptions.get_cases` / `get_simulation_path`:
`os.path.join` on the non-absolute second arguments used here. -/
def pjoin (a b : String) : String := a ++ "/" ++ b

/-- Python truthiness of `self.base_path` in `if self.base_path:`:
`None` and the empty string are falsy. -/
def truthy : Option String → Bool
  | none => false
  | some s => !(s = "")

/-- The base-path computation at the top of `UserOptions.get_cases`:
`abspath(base_path)` when truthy, else `abspath(join(script_dir, os.path.pardir))`
(`os.path.pardir` is the literal `".."`).  `os.path.abspath` depends on the
process working directory and is passed in as a function. -/
def UserOptions.resolveBase (abspath : String → String) (script_dir : String)
    (base_path : Option String) : String :=
  if truthy base_path then abspath (base_path.getD "")
  else abspath (pjoin script_dir "..")

/-- The reacting/non-reacting directory component. -/
def reactStr (reacting : Bool) : String :=
  if reacting then "reacting" else "non-reacting"

/-- `UserOptions.get_cases`: joins the resolved base path with the
reacting string, then each case name onto that. -/
def UserOptions.get_cases (abspath : String → String) (script_dir : String)
    (base_path : Option String) (reacting : Bool) (cases : List String) :
    List String :=
  let bp := pjoin (UserOptions.resolveBase abspath script_dir base_path)
    (reactStr reacting)
  cases.map (fun c => pjoin bp c)

/-- The message of the exception raised by `UserOptions.get_simulation_path`:
`'Graph {} for case {} {} not found, {} is not a valid directory'.format(
graph_name, 'reacting' if self.reacting else 'non-reacting', case, path)`. -/
def simPathErrorMsg (reacting : Bool) (case graph_name path : String) : String :=
  "Graph " ++ graph_name ++ " for case " ++ reactStr reacting ++ " " ++ case ++
    " not found, " ++ path ++ " is not a valid directory"

/-- The path `get_simulation_path` resolves:
`abspath(join(base_path, case, 'postProcessing', graph_name))`. -/
def simPath (abspath : String → String)
    (base_path case graph_name : String) : String :=
  abspath (pjoin (pjoin (pjoin base_path case) "postProcessing") graph_name)

/-- `UserOptions.get_simulation_path(case, graph_name)`: builds
`join(base_path, case, 'postProcessing', graph_name)`, makes it absolute,
and raises unless it is a directory.  `os.path.isdir` and `os.path.abspath`
are file-system dependent and passed in as functions; the raised
`Exception` is modelled as `Except.error` carrying the message. -/
def UserOptions.get_simulation_path (isdir : String → Bool)
    (abspath : String → String) (base_path : String) (reacting : Bool)
    (case graph_name : String) : Except String String :=
  let path := simPath abspath base_path case graph_name
  if isdir path then Except.ok path
  else Except.error (simPathErrorMsg reacting case graph_name path)

/-- The `PlotStyles` class. -/
structure PlotStyles where
  num_colors : ℕ
  grey : Bool
  deriving DecidableEq

/-- `PlotStyles.__init__(cases, grey)`: `num_colors = len(cases) + 1`
(the extra slot is for experimental data). -/
def PlotStyles.make (cases : List String) (grey : Bool) : PlotStyles :=
  { num_colors := cases.length + 1, grey := grey }

/-- The colormap name chosen by the `color_map` property. -/
def PlotStyles.cmapName (ps : PlotStyles) : String :=
  if ps.grey then "Greys" else "inferno"

/-- The number of discrete colors the `color_map` property requests:
`plt.get_cmap(cmap, self.num_colors + 1)`. -/
def PlotStyles.colorMapSize (ps : PlotStyles) : ℕ := ps.num_colors + 1

/-- The palette index `UserOptions.color(caseno, exp)` passes to the
colormap: `caseno + 1 if not exp else 0`. -/
def UserOptions.colorIndex (caseno : ℕ) (exp : Bool) : ℕ :=
  if exp then 0 else caseno + 1

/-- The entry of a dataset at row `r`, column `i` (`self.data[r, i]`). -/
def dataset.entryAt (ds : dataset) (r i : ℕ) : Option ℚ :=
  (ds.data.entries.get? r).bind (fun row => row.get? i)

/-- The entry at row `r`, column `i` after `normalize(reacting)`. -/
def normalizeEntryAt (ds : dataset) (reacting : Bool) (r i : ℕ) : Option ℚ :=
  (ds.normalize reacting).bind (fun d => d.entryAt r i)

section Lemmas

theorem normalizeRow_length (dims : dimensions) (name : String) :
    ∀ (cols : List String) (row : List ℚ),
      (normalizeRow dims name cols row).length = row.length := by
  intro cols row
  induction row generalizing cols with
  | nil => cases cols <;> simp [normalizeRow]
  | cons v vs ih => cases cols <;> simp [normalizeRow, ih]

/-- Pointwise description of `normalizeRow`: entry `i` is transformed by
the name of column `i` when that column exists, and kept otherwise. -/
theorem normalizeRow_get? (dims : dimensions) (name : String) :
    ∀ (cols : List String) (row : List ℚ) (i : ℕ),
      (normalizeRow dims name cols row).get? i =
        match cols.get? i with
        | some col => (row.get? i).map (normalizeValue dims name col)
        | none => row.get? i := by
  intro cols row
  induction row generalizing cols with
  | nil =>
    intro i
    cases h : cols.get? i <;> simp [normalizeRow]
  | cons v vs ih =>
    intro i
    cases cols with
    | nil =>
      cases i with
      | zero => simp [normalizeRow]
      | succ n => simpa [normalizeRow] using ih [] n
    | cons c cs =>
      cases i with
      | zero => simp [normalizeRow]
      | succ n => simpa [normalizeRow] using ih cs n

theorem normalizeValue_spatial (dims : dimensions) (name col : String) (v : ℚ)
    (hyz : col = "y" ∨ col = "z") :
    normalizeValue dims name col v =
      ((v - dims.offsetAttr col) * dims.flipAttr col) / dims.D := by
  rcases hyz with h | h <;> simp [normalizeValue, h]

theorem normalizeValue_velocity (dims : dimensions) (name col : String) (v : ℚ)
    (hU : col = "Ux" ∨ col = "Uy" ∨ col = "Uz") :
    normalizeValue dims name col v =
      (if strContains name "fluct" then v else v * dims.flipAttr (axisOf col)) /
        dims.Ubulk := by
  rcases hU with h | h | h <;> simp [normalizeValue, h]

theorem normalizeValue_other (dims : dimensions) (name col : String) (v : ℚ)
    (h : col ∉ (["y", "z", "Ux", "Uy", "Uz"] : List String)) :
    normalizeValue dims name col v = v := by
  simp only [List.mem_cons, List.not_mem_nil, or_false, not_or] at h
  obtain ⟨h1, h2, h3, h4, h5⟩ := h
  simp [normalizeValue, h1, h2, h3, h4, h5]

/-- Unfolding `normalize` on a simulation dataset. -/
theorem normalize_eq_some {ds : dataset} {reacting : Bool}
    (hsim : ds.is_simulation = true) :
    ds.normalize reacting = some { ds with data := { ds.data with
      entries := ds.data.entries.map
        (normalizeRow (dimensions.make reacting) ds.name ds.columns) } } := by
  simp [dataset.normalize, hsim]

theorem normalize_result {ds : dataset} {reacting : Bool} {ds' : dataset}
    (h : ds.normalize reacting = some ds') :
    ds.is_simulation = true ∧
      ds' = { ds with data := { ds.data with
        entries := ds.data.entries.map
          (normalizeRow (dimensions.make reacting) ds.name ds.columns) } } := by
  have hsim : ds.is_simulation = true := by
    by_contra hns
    rw [Bool.not_eq_true] at hns
    simp [dataset.normalize, hns] at h
  rw [normalize_eq_some hsim] at h
  exact ⟨hsim, (Option.some_inj.mp h).symm⟩

/-- `normalize` preserves the constructor invariant. -/
theorem Inv_normalize {ds : dataset} {reacting : Bool} {ds' : dataset}
    (hinv : ds.Inv) (h : ds.normalize reacting = some ds') : ds'.Inv := by
  obtain ⟨⟨hlen, hrows⟩, hcols⟩ := hinv
  obtain ⟨hsim, rfl⟩ := normalize_result h
  refine ⟨⟨by simpa using hlen, ?_⟩, hcols⟩
  intro row hrow
  rw [List.mem_map] at hrow
  obtain ⟨row0, hrow0, rfl⟩ := hrow
  rw [normalizeRow_length]
  exact hrows row0 hrow0

/-- `__setitem__` preserves the constructor invariant. -/
theorem Inv_setItem {ds : dataset} (hinv : ds.Inv) (i j : ℕ) (v : ℚ) :
    (ds.setItem i j v).Inv := by
  obtain ⟨⟨hlen, hrows⟩, hcols⟩ := hinv
  refine ⟨⟨by simp [dataset.setItem, List.length_set, hlen], ?_⟩, hcols⟩
  intro row hrow
  simp only [dataset.setItem] at hrow
  by_cases hi : i < ds.data.entries.length
  · rcases List.mem_or_eq_of_mem_set hrow with hmem | rfl
    · exact hrows row hmem
    · rw [List.length_set, List.getD_eq_getElem?_getD,
        List.getElem?_eq_getElem hi]
      exact hrows _ (List.getElem_mem hi)
  · rw [List.set_eq_of_length_le (Nat.le_of_not_lt hi)] at hrow
    exact hrows row hrow

/-- `isPrefixOf` holds of a list against itself extended on the right. -/
theorem isPrefixOf_append_self : ∀ (p r : List Char), p.isPrefixOf (p ++ r) = true
  | [], _ => by simp [List.isPrefixOf]
  | c :: p, r => by simp [List.isPrefixOf, isPrefixOf_append_self p r]

theorem tails_any_of_head (p l : List Char) (h : p.isPrefixOf l = true) :
    (l.tails.any (fun t => p.isPrefixOf t)) = true := by
  cases l with
  | nil => simpa using h
  | cons x xs => simp [h]

theorem tails_any_append (p : List Char) :
    ∀ (a l : List Char), p.isPrefixOf l = true →
      ((a ++ l).tails.any (fun t => p.isPrefixOf t)) = true
  | [], l, h => by simpa using tails_any_of_head p l h
  | x :: a, l, h => by
    simp only [List.cons_append, List.tails_cons, List.any_cons]
    rw [tails_any_append p a l h, Bool.or_true]

/-- A string contains any middle factor of its character data. -/
theorem strContains_of_data (s pat : String) (a c : List Char)
    (h : s.data = a ++ pat.data ++ c) : strContains s pat = true := by
  unfold strContains
  rw [h, List.append_assoc]
  exact tails_any_append pat.data a (pat.data ++ c)
    (isPrefixOf_append_self pat.data c)

end Lemmas

/-! Concrete datasets used to instantiate the theorems. -/

/-- A 1×1 array holding 0.1 (the 100 mm-equivalent spatial sample). -/
def arrY : NpArray := { shape0 := 1, shape1 := 1, entries := [[1 / 10]] }

/-- A simulation dataset with a single `y` column. -/
def dsY : dataset :=
  { columns := ["y"], data := arrY, name := "simulation", is_simulation := true }

/-- A 1×1 array holding 17.6 (the reacting bulk velocity). -/
def arrUx : NpArray := { shape0 := 1, shape1 := 1, entries := [[176 / 10]] }

/-- A simulation dataset with a single `Ux` column and a
non-fluctuation name. -/
def dsUx : dataset :=
  { columns := ["Ux"], data := arrUx, name := "simulation",
    is_simulation := true }

/-- A 1×2 array: a temperature sample next to a spatial sample. -/
def arrMixed : NpArray := { shape0 := 1, shape1 := 2, entries := [[300, 1 / 10]] }

/-- A simulation dataset with a non-normalized column `T` next to `y`. -/
def dsMixed : dataset :=
  { columns := ["T", "y"], data := arrMixed, name := "simulation",
    is_simulation := true }

/-- The result of `dsMixed.normalize(False)` (the record `normalize`
produces, by definition). -/
def dsMixedN : dataset :=
  { dsMixed with data := { dsMixed.data with
      entries := dsMixed.data.entries.map
        (normalizeRow (dimensions.make false) dsMixed.name dsMixed.columns) } }

/-- An `isdir` oracle that reports every path as a directory. -/
def constTrue : String → Bool := fun _ => true

/-- An `isdir` oracle that reports no path as a directory. -/
def constFalse : String → Bool := fun _ => false

/-! The claims. -/

/-- C1 (amended): on a simulation dataset, `normalize(reacting)` maps each
value `v` of a column named `y` or `z` to `(v - offset) * flip / D`,
applying the steps in that order — subtract the axis offset, multiply by
the axis flip sign (default 1 when the class defines no flip attribute for
that axis), divide by the characteristic length.  The `dimensions` class
defines no `y_flip`, so the flip for column `y` is the default 1 (not −1),
and with offset 60 mm-equivalent (0.06), flip 1 and D = 40 mm-equivalent
(0.04), the value 100 mm-equivalent (0.1) maps to +1.0. -/
theorem normalize_spatial_column (ds : dataset) (reacting : Bool)
    (hsim : ds.is_simulation = true) (r i : ℕ) (col : String)
    (hcol : ds.columns.get? i = some col) (hyz : col = "y" ∨ col = "z")
    (v : ℚ) (hv : ds.entryAt r i = some v) :
    normalizeEntryAt ds reacting r i =
      some (((v - (dimensions.make reacting).offsetAttr col) *
          (dimensions.make reacting).flipAttr col) /
        (dimensions.make reacting).D) ∧
    (dimensions.make reacting).flipAttr "y" = 1 ∧
    (dimensions.make reacting).y_offset = 6 / 100 ∧
    (dimensions.make reacting).D = 4 / 100 := by
  refine ⟨?_, by simp +decide [dimensions.flipAttr],
    by simp [dimensions.make]; norm_num, by simp [dimensions.make]; norm_num⟩
  unfold normalizeEntryAt
  rw [normalize_eq_some hsim]
  unfold dataset.entryAt at hv ⊢
  simp only [Option.some_bind]
  rw [List.get?_map]
  cases hrow : ds.data.entries.get? r with
  | none => rw [hrow] at hv; simp at hv
  | some row =>
    rw [hrow] at hv
    simp only [Option.some_bind] at hv
    simp only [Option.map_some', Option.some_bind]
    rw [normalizeRow_get?, hcol, hv]
    simp [normalizeValue_spatial _ _ _ _ hyz]

/-- C1 witness: the spatial formula instantiated on the concrete `y`
dataset `dsY` at value 0.1 under the non-reacting flag. -/
theorem normalize_spatial_column_witness :
    normalizeEntryAt dsY false 0 0 =
      some ((((1 : ℚ) / 10 - (dimensions.make false).offsetAttr "y") *
          (dimensions.make false).flipAttr "y") /
        (dimensions.make false).D) ∧
    (dimensions.make false).flipAttr "y" = 1 ∧
    (dimensions.make false).y_offset = 6 / 100 ∧
    (dimensions.make false).D = 4 / 100 :=
  normalize_spatial_column dsY false rfl 0 0 "y" (by decide) (by decide)
    (1 / 10) rfl

/-- C1 counterexample: the claim's instance says the value 100
mm-equivalent in a `y` column maps to −1.0 (taking the `y` flip to be −1);
in the code the `y` axis has no flip attribute, so the value 0.1 (100 mm)
actually maps to +1.0, not −1.0. -/
theorem normalize_y_not_minus_one :
    normalizeEntryAt dsY false 0 0 = some 1 ∧
    normalizeEntryAt dsY false 0 0 ≠ some (-1) := by
  have h : normalizeEntryAt dsY false 0 0 = some 1 := by
    simp +decide [normalizeEntryAt, dataset.entryAt, dataset.normalize, dsY,
      arrY, normalizeRow, normalizeValue, dimensions.make,
      dimensions.offsetAttr, dimensions.flipAttr]
    norm_num
  refine ⟨h, ?_⟩
  rw [h]
  intro hc
  rw [Option.some_inj] at hc
  norm_num at hc

/-- C2: on a simulation dataset, `normalize(reacting)` maps each value `v`
of a column named `Ux`, `Uy` or `Uz` to `v * flip / Ubulk` when the
dataset name does not contain `fluct`, and to `v / Ubulk` when it does;
the flip is the flip attribute of the matching spatial axis (the last
character of the column name), default 1, and `Ubulk` is 17.6 when
reacting and 16.6 otherwise — so 17.6 with flip 1 under the reacting flag
maps to 1.0. -/
theorem normalize_velocity_column (ds : dataset) (reacting : Bool)
    (hsim : ds.is_simulation = true) (r i : ℕ) (col : String)
    (hcol : ds.columns.get? i = some col)
    (hU : col = "Ux" ∨ col = "Uy" ∨ col = "Uz")
    (v : ℚ) (hv : ds.entryAt r i = some v) :
    normalizeEntryAt ds reacting r i =
      some ((if strContains ds.name "fluct" then v
          else v * (dimensions.make reacting).flipAttr (axisOf col)) /
        (dimensions.make reacting).Ubulk) ∧
    (dimensions.make reacting).Ubulk =
      (if reacting then (176 : ℚ) / 10 else 166 / 10) ∧
    (dimensions.make reacting).flipAttr "x" = 1 ∧
    (dimensions.make reacting).flipAttr "z" = -1 := by
  refine ⟨?_, by cases reacting <;> simp [dimensions.make],
    by simp +decide [dimensions.flipAttr],
    by simp +decide [dimensions.flipAttr, dimensions.make]⟩
  unfold normalizeEntryAt
  rw [normalize_eq_some hsim]
  unfold dataset.entryAt at hv ⊢
  simp only [Option.some_bind] at hv ⊢
  rw [List.get?_map]
  cases hrow : ds.data.entries.get? r with
  | none => rw [hrow] at hv; simp at hv
  | some row =>
    rw [hrow] at hv
    simp only [Option.some_bind] at hv
    simp only [Option.map_some', Option.some_bind]
    rw [normalizeRow_get?, hcol, hv]
    simp [normalizeValue_velocity _ _ _ _ hU]

/-- C2 witness: the velocity formula instantiated on the concrete `Ux`
dataset `dsUx` at value 17.6 under the reacting flag. -/
theorem normalize_velocity_column_witness :
    normalizeEntryAt dsUx true 0 0 =
      some ((if strContains dsUx.name "fluct" then (176 : ℚ) / 10
          else 176 / 10 * (dimensions.make true).flipAttr (axisOf "Ux")) /
        (dimensions.make true).Ubulk) ∧
    (dimensions.make true).Ubulk =
      (if true then (176 : ℚ) / 10 else 166 / 10) ∧
    (dimensions.make true).flipAttr "x" = 1 ∧
    (dimensions.make true).flipAttr "z" = -1 :=
  normalize_velocity_column dsUx true rfl 0 0 "Ux" (by decide) (by decide)
    (176 / 10) rfl

/-- C3: `normalize` fails (the leading assertion) exactly on datasets
constructed with `is_simulation = false`, and never on simulation
datasets. -/
theorem normalize_requires_simulation (ds : dataset) (reacting : Bool) :
    ds.normalize reacting = none ↔ ds.is_simulation = false := by
  cases hsim : ds.is_simulation <;> simp [dataset.normalize, hsim]

/-- C4: `normalize` leaves the column-name list, the name, the
`is_simulation` flag and the array shape unchanged, and leaves every entry
of a column whose name is not among y, z, Ux, Uy, Uz unchanged. -/
theorem normalize_frame (ds : dataset) (reacting : Bool) (ds' : dataset)
    (h : ds.normalize reacting = some ds') :
    ds'.columns = ds.columns ∧ ds'.name = ds.name ∧
    ds'.is_simulation = ds.is_simulation ∧ ds'.shape = ds.shape ∧
    ∀ i col, ds.columns.get? i = some col →
      col ∉ (["y", "z", "Ux", "Uy", "Uz"] : List String) →
      ∀ r, ds'.entryAt r i = ds.entryAt r i := by
  obtain ⟨hsim, rfl⟩ := normalize_result h
  refine ⟨rfl, rfl, rfl, rfl, ?_⟩
  intro i col hcol hnot r
  unfold dataset.entryAt
  dsimp only
  rw [List.get?_map]
  cases hrow : ds.data.entries.get? r with
  | none => simp
  | some row =>
    simp only [Option.map_some', Option.some_bind]
    rw [normalizeRow_get?, hcol]
    cases hv : row.get? i with
    | none => simp
    | some v => simp [normalizeValue_other _ _ _ _ hnot]

/-- C4 witness: normalizing `dsMixed` keeps its metadata, its shape, and
the entry of the `T` column. -/
theorem normalize_frame_witness :
    dsMixedN.columns = dsMixed.columns ∧ dsMixedN.name = dsMixed.name ∧
    dsMixedN.is_simulation = dsMixed.is_simulation ∧
    dsMixedN.shape = dsMixed.shape ∧
    dsMixedN.entryAt 0 0 = dsMixed.entryAt 0 0 := by
  obtain ⟨h1, h2, h3, h4, h5⟩ := normalize_frame dsMixed false dsMixedN rfl
  exact ⟨h1, h2, h3, h4, h5 0 "T" (by decide) (by decide) 0⟩

/-- C5: `normalize` is not idempotent: on the simulation dataset `dsY`
(whose `y` column has the non-zero offset 0.06) a single application sends
0.1 to 1.0, while a second application sends it on to 23.5 — the offset is
subtracted and the scale applied again. -/
theorem normalize_not_idempotent :
    dsY.is_simulation = true ∧ dsY.columns.get? 0 = some "y" ∧
    (dimensions.make false).offsetAttr "y" ≠ 0 ∧
    normalizeEntryAt dsY false 0 0 = some 1 ∧
    ((dsY.normalize false).bind (fun d => d.normalize false)).bind
        (fun d => d.entryAt 0 0) = some (47 / 2) ∧
    ((1 : ℚ) ≠ 47 / 2) := by
  refine ⟨rfl, by decide, ?_, ?_, ?_, by norm_num⟩
  · simp only [dimensions.offsetAttr, dimensions.make]
    norm_num
  · simp +decide [normalizeEntryAt, dataset.entryAt, dataset.normalize, dsY,
      arrY, normalizeRow, normalizeValue, dimensions.make,
      dimensions.offsetAttr, dimensions.flipAttr]
    norm_num
  · simp +decide [dataset.entryAt, dataset.normalize, dsY, arrY,
      normalizeRow, normalizeValue, dimensions.make, dimensions.offsetAttr,
      dimensions.flipAttr]
    norm_num

/-- C6: the structural invariant — array column count equal to the length
of the column-name list.  Construction with a mismatched column count
fails (the constructor assertion); construction from a well-formed array
establishes the invariant; `normalize` and `__setitem__` preserve it. -/
theorem dataset_invariant :
    (∀ (cols : List String) (a : NpArray) (name : String) (sim : Bool),
      cols.length ≠ a.shape1 → dataset.make cols a name sim = none) ∧
    (∀ (cols : List String) (a : NpArray) (name : String) (sim : Bool)
      (ds : dataset), a.WF → dataset.make cols a name sim = some ds →
        ds.Inv) ∧
    (∀ (ds ds' : dataset) (reacting : Bool),
      ds.Inv → ds.normalize reacting = some ds' → ds'.Inv) ∧
    (∀ (ds : dataset) (i j : ℕ) (v : ℚ), ds.Inv → (ds.setItem i j v).Inv) := by
  refine ⟨?_, ?_, fun ds ds' reacting hi h => Inv_normalize hi h,
    fun ds i j v hi => Inv_setItem hi i j v⟩
  · intro cols a name sim hne
    simp [dataset.make, hne]
  · intro cols a name sim ds hwf h
    unfold dataset.make at h
    by_cases hc : cols.length = a.shape1
    · rw [if_pos hc] at h
      obtain rfl := Option.some_inj.mp h
      exact ⟨hwf, hc⟩
    · rw [if_neg hc] at h
      cases h

/-- C6 witness: a mismatched construction fails; the invariant survives a
`__setitem__` write and a `normalize` on concrete datasets. -/
theorem dataset_invariant_witness :
    dataset.make ["a", "b"] arrY "exp" false = none ∧
    dataset.Inv (dsY.setItem 0 0 2) ∧
    dataset.Inv dsMixedN :=
  ⟨dataset_invariant.1 ["a", "b"] arrY "exp" false (by decide),
   dataset_invariant.2.2.2 dsY 0 0 2 (by decide),
   dataset_invariant.2.2.1 dsMixed dsMixedN false (by decide) rfl⟩

/-- C7: `get_cases` returns one path per case name, the i-th being
`{base_path}/{reacting|non-reacting}/{case_i}`, the root directory chosen
by the reacting flag; when no base path is supplied (Python-falsy), the
base is the default location `script_dir/..` made absolute. -/
theorem get_cases_spec (abspath : String → String) (script_dir : String)
    (base_path : Option String) (reacting : Bool) (cases : List String) :
    (UserOptions.get_cases abspath script_dir base_path reacting cases).length
      = cases.length ∧
    (∀ i c, cases.get? i = some c →
      (UserOptions.get_cases abspath script_dir base_path reacting
          cases).get? i =
        some (pjoin (pjoin (UserOptions.resolveBase abspath script_dir
          base_path) (reactStr reacting)) c)) ∧
    (truthy base_path = false →
      UserOptions.resolveBase abspath script_dir base_path =
        abspath (pjoin script_dir "..")) := by
  refine ⟨by simp [UserOptions.get_cases], ?_, ?_⟩
  · intro i c hc
    unfold UserOptions.get_cases
    rw [List.get?_map, hc]
    rfl
  · intro hfalse
    unfold UserOptions.resolveBase
    rw [hfalse]
    simp

/-- C7 witness: one case, no base path, reacting flag set. -/
theorem get_cases_spec_witness :
    (UserOptions.get_cases id "/sd" none true ["c1"]).length =
      (["c1"] : List String).length ∧
    (UserOptions.get_cases id "/sd" none true ["c1"]).get? 0 =
      some (pjoin (pjoin (UserOptions.resolveBase id "/sd" none)
        (reactStr true)) "c1") ∧
    UserOptions.resolveBase id "/sd" none = id (pjoin "/sd" "..") := by
  obtain ⟨h1, h2, h3⟩ := get_cases_spec id "/sd" none true ["c1"]
  exact ⟨h1, h2 0 "c1" rfl, h3 rfl⟩

/-- C8: `get_simulation_path` returns the resolved
`{base_path}/{case}/postProcessing/{graph_name}` path when it is a
directory, and otherwise raises an exception whose message names the
graph, the case and the expected path. -/
theorem get_simulation_path_spec (isdir : String → Bool)
    (abspath : String → String) (base_path : String) (reacting : Bool)
    (case graph_name : String) :
    (isdir (simPath abspath base_path case graph_name) = true →
      UserOptions.get_simulation_path isdir abspath base_path reacting case
          graph_name =
        Except.ok (simPath abspath base_path case graph_name)) ∧
    (isdir (simPath abspath base_path case graph_name) = false →
      UserOptions.get_simulation_path isdir abspath base_path reacting case
          graph_name =
        Except.error (simPathErrorMsg reacting case graph_name
          (simPath abspath base_path case graph_name))) ∧
    strContains (simPathErrorMsg reacting case graph_name
      (simPath abspath base_path case graph_name)) graph_name = true ∧
    strContains (simPathErrorMsg reacting case graph_name
      (simPath abspath base_path case graph_name)) case = true ∧
    strContains (simPathErrorMsg reacting case graph_name
      (simPath abspath base_path case graph_name))
      (simPath abspath base_path case graph_name) = true := by
  refine ⟨?_, ?_, ?_, ?_, ?_⟩
  · intro h
    simp [UserOptions.get_simulation_path, h]
  · intro h
    simp [UserOptions.get_simulation_path, h]
  · exact strContains_of_data _ _ ("Graph ").data
      ((" for case " ++ reactStr reacting ++ " " ++ case ++ " not found, " ++
        simPath abspath base_path case graph_name ++
        " is not a valid directory").data)
      (by simp [simPathErrorMsg, List.append_assoc])
  · exact strContains_of_data _ _
      (("Graph " ++ graph_name ++ " for case " ++ reactStr reacting ++
        " ").data)
      ((" not found, " ++ simPath abspath base_path case graph_name ++
        " is not a valid directory").data)
      (by simp [simPathErrorMsg, List.append_assoc])
  · exact strContains_of_data _ _
      (("Graph " ++ graph_name ++ " for case " ++ reactStr reacting ++ " " ++
        case ++ " not found, ").data)
      ((" is not a valid directory").data)
      (by simp [simPathErrorMsg, List.append_assoc])

/-- C8 witness: with an all-directories oracle the path is returned; with
a no-directories oracle the error carries the message, which contains the
graph name. -/
theorem get_simulation_path_spec_witness :
    UserOptions.get_simulation_path constTrue id "/b" true "c" "g" =
      Except.ok (simPath id "/b" "c" "g") ∧
    UserOptions.get_simulation_path constFalse id "/b" true "c" "g" =
      Except.error (simPathErrorMsg true "c" "g" (simPath id "/b" "c" "g")) ∧
    strContains (simPathErrorMsg true "c" "g" (simPath id "/b" "c" "g"))
      "g" = true :=
  ⟨(get_simulation_path_spec constTrue id "/b" true "c" "g").1 rfl,
   (get_simulation_path_spec constFalse id "/b" true "c" "g").2.1 rfl,
   (get_simulation_path_spec constFalse id "/b" true "c" "g").2.2.1⟩

/-- C9 (amended): the color map is sized to the number of cases + 2 (the
`color_map` property requests `num_colors + 1` entries where `num_colors =
len(cases) + 1` reserves a slot for experimental data); its name depends
only on the grey flag and its size only on the case count, distinct case
numbers get distinct palette indices, experimental data always gets the
fixed index 0, distinct from every case index, and in-range case indices
lie within the map. -/
theorem color_assignment (cases : List String) (grey : Bool) :
    PlotStyles.colorMapSize (PlotStyles.make cases grey) =
      cases.length + 2 ∧
    PlotStyles.cmapName (PlotStyles.make cases grey) =
      (if grey then "Greys" else "inferno") ∧
    (∀ a b : ℕ, a ≠ b →
      UserOptions.colorIndex a false ≠ UserOptions.colorIndex b false) ∧
    (∀ a : ℕ, UserOptions.colorIndex a true = 0) ∧
    (∀ a : ℕ, UserOptions.colorIndex a false ≠ 0) ∧
    (∀ a : ℕ, a < cases.length →
      UserOptions.colorIndex a false <
        PlotStyles.colorMapSize (PlotStyles.make cases grey)) := by
  refine ⟨rfl, rfl, ?_, fun a => rfl, fun a => by simp [UserOptions.colorIndex], ?_⟩
  · intro a b hab
    simp only [UserOptions.colorIndex, if_neg Bool.false_ne_true]
    omega
  · intro a ha
    simp only [UserOptions.colorIndex, PlotStyles.colorMapSize,
      PlotStyles.make, if_neg Bool.false_ne_true]
    omega

/-- C9 witness: one case, sequential (non-grey) palette. -/
theorem color_assignment_witness :
    PlotStyles.colorMapSize (PlotStyles.make ["case1"] false) =
      (["case1"] : List String).length + 2 ∧
    PlotStyles.cmapName (PlotStyles.make ["case1"] false) =
      (if false then "Greys" else "inferno") ∧
    UserOptions.colorIndex 0 false ≠ UserOptions.colorIndex 1 false ∧
    UserOptions.colorIndex 5 true = 0 ∧
    UserOptions.colorIndex 0 false ≠ 0 ∧
    UserOptions.colorIndex 0 false <
      PlotStyles.colorMapSize (PlotStyles.make ["case1"] false) := by
  obtain ⟨h1, h2, h3, h4, h5, h6⟩ := color_assignment ["case1"] false
  exact ⟨h1, h2, h3 0 1 (by decide), h4 5, h5 0, h6 0 (by decide)⟩

/-- C9 counterexample: the claim says the color map is sized to the
number of cases + 1; with one case the code requests 3 discrete colors
(`num_colors + 1` with `num_colors = 1 + 1`), not 2. -/
theorem color_map_size_counterexample :
    PlotStyles.colorMapSize (PlotStyles.make ["case1"] false) = 3 ∧
    (["case1"] : List String).length + 1 = 2 := by decide

/-- C10: for a dataset accepted by the constructor, `npoints` returns
`data.shape[1]`, which the constructor assertion forces to equal the
length of the column-name list — the number of columns, not the number of
data points. -/
theorem npoints_is_column_count (cols : List String) (a : NpArray)
    (name : String) (sim : Bool) (ds : dataset)
    (h : dataset.make cols a name sim = some ds) :
    ds.npoints = ds.data.shape1 ∧ ds.npoints = ds.columns.length := by
  unfold dataset.make at h
  by_cases hc : cols.length = a.shape1
  · rw [if_pos hc] at h
    obtain rfl := Option.some_inj.mp h
    exact ⟨rfl, hc.symm⟩
  · rw [if_neg hc] at h
    cases h

/-- C10 witness: `dsY` as produced by the constructor. -/
theorem npoints_is_column_count_witness :
    dsY.npoints = dsY.data.shape1 ∧ dsY.npoints = dsY.columns.length :=
  npoints_is_column_count ["y"] arrY "simulation" true dsY rfl
